import Mathlib

/-!
Verification of the zd-cli core against its specification.

This file gives a shallow embedding, in Lean 4, of the parts of the
zd-cli Go program that the specification talks about: the disk-backed
response cache, the cache-key scheme and write-path invalidation of the
API client, client construction and authorization-header derivation,
API-error classification, the retry-with-backoff helper, the per-page
clamp of the list commands, the optional-id handling of the ticket
create/update commands, and the OAuth flow's callback handling and
state-token generation.

Conventions of the embedding:
- Go machine integers (int, int64) are modelled as `Int`; all the values
  involved stay far from the 64-bit boundaries, and no source operation
  here relies on wrap-around.
- Byte strings are modelled as `List Nat` (one byte per element).
- The filesystem under the cache directory is modelled as a map from
  cache key to optional file content; `keyToPath` (a SHA-256 digest of
  the key) is treated as key-addressed storage, since the path
  derivation is a fixed injection from keys to file names.
- Wall-clock instants are `Int` (Unix nanoseconds or seconds, as noted
  at each definition).
-/

namespace ZdCli

/-! ## Decimal rendering (embedding of fmt %d / strconv) -/

/-- Character for a single decimal digit, as Go's formatting produces it. -/
def digitChar (d : Nat) : Char := Char.ofNat (48 + d)

/-- Fuel-driven decimal digit expansion; with fuel at least 1 it yields the
usual most-significant-first digit list of `n`. -/
def natDigitsAux : Nat → Nat → List Char
  | 0, _ => []
  | fuel + 1, n =>
    if n < 10 then [digitChar n]
    else natDigitsAux fuel (n / 10) ++ [digitChar (n % 10)]

/-- Decimal digits of a natural number, most significant first. -/
def natDigits (n : Nat) : List Char := natDigitsAux (n + 1) n

/-- Decimal string of a natural number (embedding of Go %d on non-negative values). -/
def natStr (n : Nat) : String := ⟨natDigits n⟩

/-- Decimal string of an integer (embedding of Go %d on int64). -/
def intStr (i : Int) : String :=
  if i < 0 then "-" ++ natStr i.natAbs else natStr i.natAbs

theorem natDigitsAux_head (fuel : Nat) : ∀ n : Nat, 1 ≤ fuel →
    ∃ d rest, d < 10 ∧ natDigitsAux fuel n = digitChar d :: rest := by
  induction fuel with
  | zero => intro n h; omega
  | succ f ih =>
    intro n _
    by_cases h : n < 10
    · exact ⟨n, [], h, by simp [natDigitsAux, h]⟩
    · rcases Nat.eq_zero_or_pos f with hf | hf
      · subst hf
        exact ⟨n % 10, [], Nat.mod_lt _ (by omega), by simp [natDigitsAux, h]⟩
      · obtain ⟨d, rest, hd, heq⟩ := ih (n / 10) hf
        exact ⟨d, rest ++ [digitChar (n % 10)], hd, by simp [natDigitsAux, h, heq]⟩

theorem natDigits_head (n : Nat) :
    ∃ d rest, d < 10 ∧ natDigits n = digitChar d :: rest :=
  natDigitsAux_head (n + 1) n (by omega)

/-- The first character of a rendered integer is a decimal digit or a minus
sign; it is never any other character. -/
theorem intStr_data_head (i : Int) :
    ∃ c rest, (intStr i).data = c :: rest ∧
      (c = '-' ∨ ∃ d, d < 10 ∧ c = digitChar d) := by
  by_cases h : i < 0
  · obtain ⟨d, rest, _, heq⟩ := natDigits_head i.natAbs
    refine ⟨'-', natDigits i.natAbs, ?_, Or.inl rfl⟩
    simp [intStr, h, natStr, String.data_append]
  · obtain ⟨d, rest, hd, heq⟩ := natDigits_head i.natAbs
    exact ⟨digitChar d, rest, by simp [intStr, h, natStr, heq], Or.inr ⟨d, hd, rfl⟩⟩

theorem intStr_ne_cons (i : Int) (c : Char) (hminus : c ≠ '-')
    (hdig : ∀ d, d < 10 → c ≠ digitChar d) :
    ∀ rest : List Char, (intStr i).data ≠ c :: rest := by
  intro rest hc
  obtain ⟨c', rest', heq, hc'⟩ := intStr_data_head i
  rw [hc] at heq
  obtain ⟨rfl, -⟩ := List.cons.inj heq
  rcases hc' with h | ⟨d, hd, h⟩
  · exact hminus h
  · exact hdig d hd h

/-! ## Local cache (src/unnamed/part_001, package cache)

The cache directory is modelled as a map from cache key to optional file
content.  A present file either fails to read (`unreadable`), fails to
parse as a JSON `Entry` (`malformed`), or is a well-formed entry carrying
its data bytes and absolute expiration instant. -/

inductive FileContent where
  | unreadable : FileContent
  | malformed : FileContent
  | entry (data : List Nat) (expiresAt : Int) : FileContent
deriving DecidableEq

/-- The cache directory: one optional file per key. -/
def FileSys : Type := String → Option FileContent

/-- Embeds os.Remove of the entry file for a key. -/
def fsRemove (fs : FileSys) (key : String) : FileSys :=
  fun k => if k = key then none else fs k

/-- Embeds Cache.Get: read the entry file, delete it when malformed or
expired (Go tests `time.Now().After(entry.ExpiresAt)`, i.e. `expiresAt < now`),
and return the data exactly when the entry is present, well formed and not
yet expired.  Returns the data (if found) together with the resulting
filesystem state. -/
def cacheGet (fs : FileSys) (now : Int) (key : String) :
    Option (List Nat) × FileSys :=
  match fs key with
  | none => (none, fs)
  | some .unreadable => (none, fs)
  | some .malformed => (none, fsRemove fs key)
  | some (.entry data expiresAt) =>
    if expiresAt < now then (none, fsRemove fs key)
    else (some data, fs)

/-- Embeds Cache.Delete (os.Remove; absence is not an error). -/
def cacheDelete (fs : FileSys) (key : String) : FileSys := fsRemove fs key

/-- Embeds Cache.Set: overwrite the entry file for the key with a fresh
well-formed entry expiring at now + ttl. -/
def cacheSet (fs : FileSys) (now ttl : Int) (key : String) (data : List Nat) :
    FileSys :=
  fun k => if k = key then some (.entry data (now + ttl)) else fs k

/-! ## Cache keys of the tickets family and write-path invalidation
(src/internal/client/tickets.go) -/

/-- Single-ticket cache key, Sprintf %s:tickets:%d (GetTicket, UpdateTicket). -/
def ticketKey (subdomain : String) (ticketID : Int) : String :=
  subdomain ++ ":tickets:" ++ intStr ticketID

/-- Ticket-list cache key, Sprintf %s:tickets:list:%d:%d:%s (ListTickets). -/
def ticketListKey (subdomain : String) (page perPage : Int) (status : String) :
    String :=
  subdomain ++ ":tickets:list:" ++ intStr page ++ ":" ++ intStr perPage ++
    ":" ++ status

/-- Ticket-search cache key, Sprintf %s:tickets:search:%s (SearchTickets). -/
def ticketSearchKey (subdomain : String) (query : String) : String :=
  subdomain ++ ":tickets:search:" ++ query

/-- Embeds the cache effect of a successful Client.UpdateTicket: delete the
single-ticket cache entry for the updated id (tickets.go lines 329-333). -/
def updateTicketInvalidate (subdomain : String) (ticketID : Int)
    (fs : FileSys) : FileSys :=
  cacheDelete fs (ticketKey subdomain ticketID)

theorem string_append_cancel_left (a b c : String) (h : a ++ b = a ++ c) :
    b = c := by
  apply String.ext
  have := congrArg String.data h
  rw [String.data_append, String.data_append] at this
  exact List.append_cancel_left this

/-- The single-ticket key never coincides with any ticket-list key of the
same subdomain: after the shared prefix, one continues with a rendered
integer (digit or minus sign first) and the other with the letter l. -/
theorem ticketKey_ne_ticketListKey (subdomain : String) (ticketID : Int)
    (page perPage : Int) (status : String) :
    ticketKey subdomain ticketID ≠ ticketListKey subdomain page perPage status := by
  intro h
  have hd := congrArg String.data h
  unfold ticketKey ticketListKey at hd
  have hsplit : (":tickets:list:" : String).data =
      (":tickets:" : String).data ++ ('l' :: 'i' :: 's' :: 't' :: ':' :: []) := rfl
  simp only [String.data_append, List.append_assoc, hsplit, List.cons_append,
    List.nil_append] at hd
  have h1 := List.append_cancel_left hd
  repeat injection h1 with _ h1
  exact intStr_ne_cons ticketID 'l' (by decide)
    (fun d hd => by interval_cases d <;> decide) _ h1

/-- The single-ticket key never coincides with any ticket-search key of the
same subdomain. -/
theorem ticketKey_ne_ticketSearchKey (subdomain : String) (ticketID : Int)
    (query : String) :
    ticketKey subdomain ticketID ≠ ticketSearchKey subdomain query := by
  intro h
  have hd := congrArg String.data h
  unfold ticketKey ticketSearchKey at hd
  have hsplit : (":tickets:search:" : String).data =
      (":tickets:" : String).data ++ ('s' :: 'e' :: 'a' :: 'r' :: 'c' :: 'h' :: ':' :: []) := rfl
  simp only [String.data_append, List.append_assoc, hsplit, List.cons_append,
    List.nil_append] at hd
  have h1 := List.append_cancel_left hd
  repeat injection h1 with _ h1
  exact intStr_ne_cons ticketID 's' (by decide)
    (fun d hd => by interval_cases d <;> decide) _ h1

/-! ## Authentication material (src/unnamed/part_002 and part_001, package auth) -/

/-- The standard base64 alphabet used by encoding/base64 StdEncoding. -/
def base64Alphabet : List Char :=
  "ABCDEFGHIJKLMNOPQRSTUVWXYZabcdefghijklmnopqrstuvwxyz0123456789+/".data

/-- Character for a 6-bit value under the standard base64 alphabet. -/
def b64Char (n : Nat) : Char := base64Alphabet.getD n 'A'

/-- Embeds base64.StdEncoding.EncodeToString on a byte list: 3-byte groups
become 4 alphabet characters, with = padding for a 1- or 2-byte tail. -/
def base64Chunks : List Nat → List Char
  | [] => []
  | [a] => [b64Char (a / 4), b64Char (a % 4 * 16), '=', '=']
  | [a, b] => [b64Char (a / 4), b64Char (a % 4 * 16 + b / 16), b64Char (b % 16 * 4), '=']
  | a :: b :: c :: rest =>
    b64Char (a / 4) :: b64Char (a % 4 * 16 + b / 16) ::
      b64Char (b % 16 * 4 + c / 64) :: b64Char (c % 64) :: base64Chunks rest

/-- Bytes of a string; the credential strings involved are ASCII, where the
UTF-8 bytes are exactly the code points. -/
def strBytes (s : String) : List Nat := s.data.map Char.toNat

/-- Base64 of a string's bytes. -/
def base64EncodeString (s : String) : String := ⟨base64Chunks (strBytes s)⟩

/-- Embeds auth.EncodeToken: base64 of email/token:apitoken. -/
def encodeToken (email apiToken : String) : String :=
  base64EncodeString (email ++ "/token:" ++ apiToken)

/-- Embeds auth.ValidateTokenAuth; some message = the returned error. -/
def validateTokenAuth (email apiToken : String) : Option String :=
  if email = "" then some "email is required for token authentication"
  else if apiToken = "" then some "API token is required for token authentication"
  else none

/-- Embeds auth.ValidateOAuthToken. -/
def validateOAuthToken (accessToken refreshToken expiry : String) : Option String :=
  if accessToken = "" then some "OAuth access token is required"
  else if refreshToken = "" then some "OAuth refresh token is required"
  else if expiry = "" then some "OAuth token expiry is required"
  else none

/-- Embeds auth.ValidateOAuthConfig. -/
def validateOAuthConfig (clientID clientSecret : String) : Option String :=
  if clientID = "" then some "OAuth client ID is required"
  else if clientSecret = "" then some "OAuth client secret is required"
  else none

/-! ## Client construction (src/unnamed/part_009, package client;
src/internal/config/config.go) -/

/-- Embeds config.Instance (the per-instance credential record). -/
structure Instance where
  subdomain : String
  authType : String
  email : String
  apiToken : String
  oauthClientID : String
  oauthSecret : String
  oauthToken : String
  oauthRefresh : String
  oauthExpiry : String
deriving DecidableEq

/-- The observable state of client.Client after construction: the derived
authorization header and whether caching ended up enabled (useCache true and
a non-nil cache pointer). -/
structure Client where
  subdomain : String
  authHeader : String
  useCache : Bool
  hasCache : Bool
deriving DecidableEq

/-- Embeds client.NewClientWithCache.  The environment decision of whether
cache.New succeeds is the cacheInitOk argument; on failure construction
still succeeds with useCache forced to false and no cache attached. -/
def newClientWithCache (inst : Instance) (useCache : Bool)
    (cacheInitOk : Bool) : Except String Client :=
  let base : Client :=
    { subdomain := inst.subdomain, authHeader := "",
      useCache := useCache, hasCache := false }
  let withAuth : Except String Client :=
    if inst.authType = "token" then
      match validateTokenAuth inst.email inst.apiToken with
      | some e => .error e
      | none =>
        .ok { base with authHeader := "Basic " ++ encodeToken inst.email inst.apiToken }
    else if inst.authType = "oauth" then
      match validateOAuthToken inst.oauthToken inst.oauthRefresh inst.oauthExpiry with
      | some e => .error e
      | none =>
        match validateOAuthConfig inst.oauthClientID inst.oauthSecret with
        | some e => .error e
        | none => .ok { base with authHeader := "Bearer " ++ inst.oauthToken }
    else
      .error ("unsupported auth type: " ++ inst.authType)
  match withAuth with
  | .error e => .error e
  | .ok c =>
    if useCache then
      if cacheInitOk then .ok { c with hasCache := true }
      else .ok { c with useCache := false, hasCache := false }
    else .ok c

/-! ## API error classification (src/unnamed/part_008, package client) -/

/-- A non-2xx response body, as json.Unmarshal into ZendeskError sees it:
either it parses (with the error and description fields it carried, the
raw text kept alongside), or it does not parse at all. -/
inductive RespBody where
  | parsed (error description raw : String) : RespBody
  | unparsed (raw : String) : RespBody
deriving DecidableEq

/-- Embeds client.APIError. -/
structure APIError where
  statusCode : Nat
  message : String
  description : String
deriving DecidableEq

/-- Embeds client.getStatusMessage (the fixed status to message table). -/
def getStatusMessage (statusCode : Nat) : String :=
  if statusCode = 400 then "Bad Request"
  else if statusCode = 401 then "Authentication Failed"
  else if statusCode = 403 then "Access Denied"
  else if statusCode = 404 then "Resource Not Found"
  else if statusCode = 422 then "Invalid Input"
  else if statusCode = 429 then "Rate Limit Exceeded"
  else if statusCode = 500 then "Zendesk Server Error"
  else if statusCode = 503 then "Zendesk Service Unavailable"
  else "HTTP " ++ natStr statusCode ++ " Error"

/-- The raw body text of a response body. -/
def RespBody.rawOf : RespBody → String
  | .parsed _ _ raw => raw
  | .unparsed raw => raw

/-- Embeds client.ParseAPIError: take the structured body when it parses
with a non-empty error field, otherwise synthesize from the status table
with the raw body as description. -/
def parseAPIError (statusCode : Nat) (body : RespBody) : APIError :=
  match body with
  | .parsed e d raw =>
    if e ≠ "" then { statusCode := statusCode, message := e, description := d }
    else { statusCode := statusCode, message := getStatusMessage statusCode,
           description := raw }
  | .unparsed raw =>
    { statusCode := statusCode, message := getStatusMessage statusCode,
      description := raw }

/-- Embeds client.IsRateLimitError on APIError values. -/
def isRateLimitError (e : APIError) : Bool := e.statusCode == 429

/-- Embeds client.IsAuthError on APIError values. -/
def isAuthError (e : APIError) : Bool :=
  e.statusCode == 401 || e.statusCode == 403

/-- Embeds client.IsNotFoundError on APIError values. -/
def isNotFoundError (e : APIError) : Bool := e.statusCode == 404

/-! ## Retry with backoff (src/internal/client/users.go, RetryWithBackoff)

One call of the wrapped function either fails at the transport level or
yields a response with a status code and an optional parsed Retry-After
header (none covers both an absent header and one strconv.Atoi rejects,
which the source treats identically).  Durations are in nanoseconds.
Context cancellation is an oracle saying, per attempt, whether ctx.Done
fires during the wait entered after that attempt. -/

inductive AttemptOutcome where
  | transportError (msg : String) : AttemptOutcome
  | response (status : Nat) (retryAfter : Option Int) : AttemptOutcome

/-- Embeds client.RetryConfig (durations in nanoseconds). -/
structure RetryConfig where
  maxRetries : Nat
  initialBackoff : Int
  maxBackoff : Int

/-- One second in nanoseconds. -/
def second : Int := 1000000000

/-- Embeds client.DefaultRetryConfig: 3 retries, 1s initial, 30s ceiling. -/
def defaultRetryConfig : RetryConfig :=
  { maxRetries := 3, initialBackoff := second, maxBackoff := 30 * second }

inductive RetryResult where
  | success (status : Nat) : RetryResult
  | ctxCancelled : RetryResult
  | exhausted (msg : String) : RetryResult
deriving DecidableEq

/-- Observable outcome of the retry loop: the final result, the sequence of
waits performed (in order, in nanoseconds) and how many times the wrapped
function was invoked. -/
structure RetryTrace where
  result : RetryResult
  waits : List Int
  calls : Nat
deriving DecidableEq

/-- The final give-up error of the loop, fmt.Errorf wrapping the last error. -/
def retryFailMsg (cfg : RetryConfig) (lastErr : String) : String :=
  "request failed after " ++ natStr cfg.maxRetries ++ " retries: " ++ lastErr

/-- The non-Retry-After tail of one loop iteration of RetryWithBackoff:
break out with the final error on the last attempt, otherwise wait
min(initialBackoff * 2 ^ attempt, maxBackoff) (abort on cancellation) and
continue with the already-computed rest of the loop. -/
def backoffStep (cfg : RetryConfig) (cancel : Nat → Bool) (attempt : Nat)
    (lastErr : String) (next : RetryTrace) : RetryTrace :=
  if attempt = cfg.maxRetries then
    { result := .exhausted (retryFailMsg cfg lastErr), waits := [], calls := 1 }
  else
    let w := min (cfg.initialBackoff * 2 ^ attempt) cfg.maxBackoff
    if cancel attempt then { result := .ctxCancelled, waits := [], calls := 1 }
    else { result := next.result, waits := w :: next.waits, calls := next.calls + 1 }

/-- Embeds the loop of client.RetryWithBackoff, structurally recursive on
the remaining iteration count (maxRetries + 1 - attempt).  A 429 response
with a parsed Retry-After waits min(retryAfter seconds, maxBackoff) and
continues without the last-attempt break, exactly as in the source; every
other retryable outcome goes through backoffStep. -/
def retryAux (cfg : RetryConfig) (fn : Nat → AttemptOutcome)
    (cancel : Nat → Bool) : Nat → Nat → String → RetryTrace
  | _, 0, lastErr =>
    { result := .exhausted (retryFailMsg cfg lastErr), waits := [], calls := 0 }
  | attempt, fuel + 1, _ =>
    match fn attempt with
    | .transportError e =>
      backoffStep cfg cancel attempt e
        (retryAux cfg fn cancel (attempt + 1) fuel e)
    | .response s ra =>
      if s < 500 ∧ s ≠ 429 then
        { result := .success s, waits := [], calls := 1 }
      else
        let le := "HTTP " ++ natStr s
        match ra with
        | some n =>
          if s = 429 then
            let w := min (n * second) cfg.maxBackoff
            if cancel attempt then
              { result := .ctxCancelled, waits := [], calls := 1 }
            else
              let t := retryAux cfg fn cancel (attempt + 1) fuel le
              { result := t.result, waits := w :: t.waits, calls := t.calls + 1 }
          else
            backoffStep cfg cancel attempt le
              (retryAux cfg fn cancel (attempt + 1) fuel le)
        | none =>
          backoffStep cfg cancel attempt le
            (retryAux cfg fn cancel (attempt + 1) fuel le)

/-- Embeds client.RetryWithBackoff with the default configuration. -/
def retryWithBackoff (fn : Nat → AttemptOutcome) (cancel : Nat → Bool) :
    RetryTrace :=
  retryAux defaultRetryConfig fn cancel 0 (defaultRetryConfig.maxRetries + 1) ""

/-! ## OAuth flow (src/unnamed/part_001, package auth) -/

/-- The query parameters of one callback request hitting /callback. -/
structure CallbackRequest where
  state : String
  error : String
  errorDescription : String
  code : String
deriving DecidableEq

/-- What the callback handler pushes into the flow's channels. -/
inductive CallbackSignal where
  | flowError (msg : String) : CallbackSignal
  | flowCode (code : String) : CallbackSignal
deriving DecidableEq

/-- Embeds the /callback handler of PerformOAuthFlow: state is verified
first; then a provider-reported error; then a missing code; otherwise the
code is delivered. -/
def handleCallback (issuedState : String) (r : CallbackRequest) :
    CallbackSignal :=
  if r.state ≠ issuedState then
    .flowError "state mismatch - possible CSRF attack"
  else if r.error ≠ "" then
    .flowError ("authorization failed: " ++ r.error ++ " - " ++ r.errorDescription)
  else if r.code = "" then
    .flowError "no authorization code received"
  else
    .flowCode r.code

/-- The single event that resolves the flow's select: the first callback,
context cancellation, or the 5-minute timeout. -/
inductive FlowEvent where
  | callback (r : CallbackRequest) : FlowEvent
  | ctxCancelled : FlowEvent
  | timeout : FlowEvent
deriving DecidableEq

/-- Outcome of PerformOAuthFlow: the token if any, whether the token
exchange with the remote endpoint was attempted at all, and the error
message if the flow failed. -/
structure FlowOutcome where
  token : Option String
  exchangeAttempted : Bool
  errorMsg : Option String
deriving DecidableEq

/-- Embeds the tail of PerformOAuthFlow: wait for the resolving event, and
only on a delivered code shut the listener down and call Exchange (the
environment function exchange says whether the remote exchange yields a
token). -/
def performOAuthFlowResolve (issuedState : String)
    (exchange : String → Option String) (ev : FlowEvent) : FlowOutcome :=
  match ev with
  | .callback r =>
    match handleCallback issuedState r with
    | .flowError m => { token := none, exchangeAttempted := false, errorMsg := some m }
    | .flowCode c =>
      match exchange c with
      | some tok => { token := some tok, exchangeAttempted := true, errorMsg := none }
      | none =>
        { token := none, exchangeAttempted := true,
          errorMsg := some "failed to exchange authorization code for token" }
  | .ctxCancelled =>
    { token := none, exchangeAttempted := false, errorMsg := some "context cancelled" }
  | .timeout =>
    { token := none, exchangeAttempted := false,
      errorMsg := some "authorization timeout - no response received within 5 minutes" }

/-- A wall-clock instant as Go's time package exposes it to this code:
whole Unix seconds plus the sub-second nanoseconds. -/
structure GoTime where
  unixSec : Int
  nanos : Nat
deriving DecidableEq

/-- Embeds the state-token generation of PerformOAuthFlow:
fmt.Sprintf of state-%d applied to time.Now().Unix(). -/
def performOAuthFlowState (t : GoTime) : String :=
  "state-" ++ intStr t.unixSec

/-! ## Per-page clamp (src/unnamed/part_004, runTicketList;
src/internal/client/tickets.go, ListTickets) -/

/-- Embeds the clamp in runTicketList: a per-page above 100 becomes 100. -/
def runTicketListPerPage (perPage : Int) : Int :=
  if perPage > 100 then 100 else perPage

/-- Embeds the request path built by Client.ListTickets; the status
argument arrives already url.QueryEscape-d (the escaping itself is not
modelled) and is appended only when non-empty. -/
def listTicketsPath (page perPage : Int) (escapedStatus : String) : String :=
  let path := "/tickets.json?page=" ++ intStr page ++ "&per_page=" ++ intStr perPage
  if escapedStatus = "" then path else path ++ "&status=" ++ escapedStatus

/-- The path of the effective HTTP request issued by the ticket list
command: the flag values flow through the clamp into ListTickets. -/
def runTicketListRequestPath (page perPage : Int) (escapedStatus : String) :
    String :=
  listTicketsPath page (runTicketListPerPage perPage) escapedStatus

/-! ## Optional id fields on ticket create/update (src/unnamed/part_004;
src/internal/client/tickets.go) -/

/-- The optional-id part of client.CreateTicketRequest. -/
structure CreateTicketIds where
  assigneeID : Option Int
  groupID : Option Int
deriving DecidableEq

/-- The optional-id part of client.UpdateTicketRequest (pointer fields
with omitempty). -/
structure UpdateTicketIds where
  assigneeID : Option Int
  groupID : Option Int
deriving DecidableEq

/-- Embeds the id handling of runTicketCreate: the flag value is attached
only when strictly positive (lines 544-549). -/
def runTicketCreateIds (assigneeID groupID : Int) : CreateTicketIds :=
  { assigneeID := if assigneeID > 0 then some assigneeID else none,
    groupID := if groupID > 0 then some groupID else none }

/-- Embeds the id handling of runTicketUpdate: the flag value is attached
whenever the flag was explicitly set on the command line (Changed), with
whatever value it carries (lines 600-610). -/
def runTicketUpdateIds (assigneeChanged : Bool) (assigneeID : Int)
    (groupChanged : Bool) (groupID : Int) : UpdateTicketIds :=
  { assigneeID := if assigneeChanged then some assigneeID else none,
    groupID := if groupChanged then some groupID else none }

/-- Embeds the optional-id fields of the outgoing CreateTicket body: the
ticket map receives assignee_id and group_id only for non-nil request
fields (tickets.go lines 294-299). -/
def createTicketBodyIds (req : CreateTicketIds) : List (String × Int) :=
  (match req.assigneeID with
   | some a => [("assignee_id", a)]
   | none => []) ++
  (match req.groupID with
   | some g => [("group_id", g)]
   | none => [])

/-- Embeds the optional-id fields of the outgoing UpdateTicket body:
json.Marshal with omitempty keeps a pointer field exactly when it is
non-nil, whatever integer it points to. -/
def updateTicketBodyIds (req : UpdateTicketIds) : List (String × Int) :=
  (match req.assigneeID with
   | some a => [("assignee_id", a)]
   | none => []) ++
  (match req.groupID with
   | some g => [("group_id", g)]
   | none => [])

/-! ## Claim C1 -/

/-- A one-entry cache directory whose entry for key k expires at instant 5. -/
def c1fs : FileSys := fun k => if k = "k" then some (.entry [7] 5) else none

/-- C1 as stated is false at the expiration boundary: at now = expiresAt the
current time is not strictly before the expiration timestamp, yet Cache.Get
still returns the data with found = true, because the source only deletes
when time.Now().After(expiresAt), which is false at equality. -/
theorem cacheGet_boundary_counterexample :
    (cacheGet c1fs 5 "k").1 = some [7] ∧ ¬ ((5 : Int) < 5) := by
  exact ⟨rfl, by decide⟩

/-- C1 (amended): Cache.Get returns (data, found = true) exactly when the
entry file for the key exists, parses as a well-formed entry, and the
current time does not exceed the expiration timestamp (now at or before
expiresAt, rather than strictly before); in every other case it returns
found = false, leaving the filesystem untouched for an absent or unreadable
file and deleting the entry file when its content is malformed or expired. -/
theorem cacheGet_spec (fs : FileSys) (now : Int) (key : String) :
    ((cacheGet fs now key).1.isSome = true ↔
      ∃ data expiresAt, fs key = some (.entry data expiresAt) ∧ now ≤ expiresAt)
    ∧ (∀ data expiresAt, fs key = some (.entry data expiresAt) → now ≤ expiresAt →
        cacheGet fs now key = (some data, fs))
    ∧ (∀ data expiresAt, fs key = some (.entry data expiresAt) → expiresAt < now →
        cacheGet fs now key = (none, fsRemove fs key))
    ∧ (fs key = some .malformed → cacheGet fs now key = (none, fsRemove fs key))
    ∧ (fs key = some .unreadable → cacheGet fs now key = (none, fs))
    ∧ (fs key = none → cacheGet fs now key = (none, fs)) := by
  cases h : fs key with
  | none =>
    simp [cacheGet, h]
  | some fc =>
    cases fc with
    | unreadable => simp [cacheGet, h]
    | malformed => simp [cacheGet, h]
    | entry data expiresAt =>
      have hinj : ∀ d e,
          some (FileContent.entry data expiresAt) = some (.entry d e) →
          data = d ∧ expiresAt = e := by
        intro d e hd
        injection hd with hd'
        injection hd' with h1 h2
        exact ⟨h1, h2⟩
      by_cases hexp : expiresAt < now
      · have hget : cacheGet fs now key = (none, fsRemove fs key) := by
          simp [cacheGet, h, hexp]
        refine ⟨?_, ?_, ?_, ?_, ?_, ?_⟩
        · rw [hget]
          simp only [Option.isSome_none, Bool.false_eq_true, false_iff]
          rintro ⟨d, e, hd, he⟩
          obtain ⟨-, h2⟩ := hinj d e hd
          omega
        · intro d e hd he
          obtain ⟨-, h2⟩ := hinj d e hd
          exact absurd he (by omega)
        · intro d e _ _
          exact hget
        · intro hx
          exact absurd hx (by simp)
        · intro hx
          exact absurd hx (by simp)
        · intro hx
          exact absurd hx (by simp)
      · have hget : cacheGet fs now key = (some data, fs) := by
          simp [cacheGet, h, hexp]
        refine ⟨?_, ?_, ?_, ?_, ?_, ?_⟩
        · rw [hget]
          simp only [Option.isSome_some, true_iff]
          exact ⟨data, expiresAt, rfl, by omega⟩
        · intro d e hd _
          obtain ⟨h1, -⟩ := hinj d e hd
          rw [hget, h1]
        · intro d e hd he
          obtain ⟨-, h2⟩ := hinj d e hd
          exact absurd he (by omega)
        · intro hx
          exact absurd hx (by simp)
        · intro hx
          exact absurd hx (by simp)
        · intro hx
          exact absurd hx (by simp)

/-- A fresh (ttl remaining) entry read back: Cache.Get succeeds with the
stored data and does not touch the store. -/
theorem cacheGet_spec_witness : cacheGet c1fs 3 "k" = (some [7], c1fs) :=
  (cacheGet_spec c1fs 3 "k").2.1 [7] 5 rfl (by decide)

/-! ## Claim C2 -/

/-- C2: a successful UpdateTicket deletes exactly the single-resource cache
entry subdomain:tickets:id, so the next GetTicket on the same id reads a
missing file (a cache miss, whatever the remaining TTL), while every ticket
list and ticket search cache entry of the same subdomain, and more
generally every other key, is left untouched. -/
theorem updateTicket_invalidation (subdomain : String) (ticketID : Int)
    (fs : FileSys) (now : Int) :
    (cacheGet (updateTicketInvalidate subdomain ticketID fs) now
        (ticketKey subdomain ticketID)).1 = none
    ∧ updateTicketInvalidate subdomain ticketID fs
        (ticketKey subdomain ticketID) = none
    ∧ (∀ page perPage status,
        updateTicketInvalidate subdomain ticketID fs
          (ticketListKey subdomain page perPage status) =
          fs (ticketListKey subdomain page perPage status))
    ∧ (∀ query,
        updateTicketInvalidate subdomain ticketID fs
          (ticketSearchKey subdomain query) =
          fs (ticketSearchKey subdomain query))
    ∧ (∀ k, k ≠ ticketKey subdomain ticketID →
        updateTicketInvalidate subdomain ticketID fs k = fs k) := by
  refine ⟨?_, ?_, ?_, ?_, ?_⟩
  · simp [updateTicketInvalidate, cacheDelete, fsRemove, cacheGet]
  · simp [updateTicketInvalidate, cacheDelete, fsRemove]
  · intro page perPage status
    simp only [updateTicketInvalidate, cacheDelete, fsRemove]
    rw [if_neg (fun h =>
      ticketKey_ne_ticketListKey subdomain ticketID page perPage status h.symm)]
  · intro query
    simp only [updateTicketInvalidate, cacheDelete, fsRemove]
    rw [if_neg (fun h =>
      ticketKey_ne_ticketSearchKey subdomain ticketID query h.symm)]
  · intro k hk
    simp [updateTicketInvalidate, cacheDelete, fsRemove, hk]

/-- A cache directory where every key holds a fresh entry. -/
def c2fs : FileSys := fun _ => some (.entry [1] 99)

/-- Updating ticket 500 on subdomain acme: the next read of the single
ticket key misses even though its entry had TTL remaining, and the list
key for page 1 per-page 30 is untouched. -/
theorem updateTicket_invalidation_witness :
    (cacheGet (updateTicketInvalidate "acme" 500 c2fs) 0
        (ticketKey "acme" 500)).1 = none
    ∧ updateTicketInvalidate "acme" 500 c2fs (ticketListKey "acme" 1 30 "") =
        c2fs (ticketListKey "acme" 1 30 "") :=
  ⟨(updateTicket_invalidation "acme" 500 c2fs 0).1,
   (updateTicket_invalidation "acme" 500 c2fs 0).2.2.1 1 30 ""⟩

/-! ## Claim C3 -/

/-- C3: a callback whose state parameter differs from the state issued for
this flow instance makes the flow terminate in failure with the state
mismatch error, returning no token, and the token exchange with the remote
endpoint is never attempted, whatever the exchange would have returned. -/
theorem oauth_state_mismatch_no_exchange (issuedState : String)
    (exchange : String → Option String) (r : CallbackRequest)
    (h : r.state ≠ issuedState) :
    performOAuthFlowResolve issuedState exchange (.callback r) =
      { token := none, exchangeAttempted := false,
        errorMsg := some "state mismatch - possible CSRF attack" } := by
  simp [performOAuthFlowResolve, handleCallback, h]

/-- A forged callback carrying a valid-looking code but the wrong state is
rejected without an exchange, even though the exchange would succeed. -/
theorem oauth_state_mismatch_witness :
    performOAuthFlowResolve "state-1700000000" (fun _ => some "tok")
      (.callback { state := "forged", error := "", errorDescription := "",
                   code := "goodcode" }) =
      { token := none, exchangeAttempted := false,
        errorMsg := some "state mismatch - possible CSRF attack" } :=
  oauth_state_mismatch_no_exchange "state-1700000000" (fun _ => some "tok")
    _ (by decide)

/-! ## Claim C4 -/

/-- C4: client construction fails with the validation error naming the
first missing required field of the declared auth mode (email and
api-token for Token mode; access token, refresh token, expiry, client id
and client secret for OAuth mode), and when every required field of the
declared mode is present, construction succeeds even when cache
initialization fails, in which case the constructed client has caching
silently disabled. -/
theorem newClient_validation (inst : Instance) (u ci : Bool) :
    (inst.authType = "token" → inst.email = "" →
      newClientWithCache inst u ci =
        .error "email is required for token authentication")
    ∧ (inst.authType = "token" → inst.email ≠ "" → inst.apiToken = "" →
      newClientWithCache inst u ci =
        .error "API token is required for token authentication")
    ∧ (inst.authType = "oauth" → inst.oauthToken = "" →
      newClientWithCache inst u ci = .error "OAuth access token is required")
    ∧ (inst.authType = "oauth" → inst.oauthToken ≠ "" → inst.oauthRefresh = "" →
      newClientWithCache inst u ci = .error "OAuth refresh token is required")
    ∧ (inst.authType = "oauth" → inst.oauthToken ≠ "" → inst.oauthRefresh ≠ "" →
        inst.oauthExpiry = "" →
      newClientWithCache inst u ci = .error "OAuth token expiry is required")
    ∧ (inst.authType = "oauth" → inst.oauthToken ≠ "" → inst.oauthRefresh ≠ "" →
        inst.oauthExpiry ≠ "" → inst.oauthClientID = "" →
      newClientWithCache inst u ci = .error "OAuth client ID is required")
    ∧ (inst.authType = "oauth" → inst.oauthToken ≠ "" → inst.oauthRefresh ≠ "" →
        inst.oauthExpiry ≠ "" → inst.oauthClientID ≠ "" → inst.oauthSecret = "" →
      newClientWithCache inst u ci = .error "OAuth client secret is required")
    ∧ (inst.authType = "token" → inst.email ≠ "" → inst.apiToken ≠ "" →
      ∃ c, newClientWithCache inst u ci = .ok c ∧
        (ci = false → c.useCache = false ∧ c.hasCache = false))
    ∧ (inst.authType = "oauth" → inst.oauthToken ≠ "" → inst.oauthRefresh ≠ "" →
        inst.oauthExpiry ≠ "" → inst.oauthClientID ≠ "" → inst.oauthSecret ≠ "" →
      ∃ c, newClientWithCache inst u ci = .ok c ∧
        (ci = false → c.useCache = false ∧ c.hasCache = false)) := by
  refine ⟨?_, ?_, ?_, ?_, ?_, ?_, ?_, ?_, ?_⟩
  · intro h1 h2
    simp [newClientWithCache, validateTokenAuth, h1, h2]
  · intro h1 h2 h3
    simp [newClientWithCache, validateTokenAuth, h1, h2, h3]
  · intro h1 h2
    simp [newClientWithCache, validateOAuthToken, h1, h2]
  · intro h1 h2 h3
    simp [newClientWithCache, validateOAuthToken, h1, h2, h3]
  · intro h1 h2 h3 h4
    simp [newClientWithCache, validateOAuthToken, h1, h2, h3, h4]
  · intro h1 h2 h3 h4 h5
    simp [newClientWithCache, validateOAuthToken, validateOAuthConfig,
      h1, h2, h3, h4, h5]
  · intro h1 h2 h3 h4 h5 h6
    simp [newClientWithCache, validateOAuthToken, validateOAuthConfig,
      h1, h2, h3, h4, h5, h6]
  · intro h1 h2 h3
    simp only [newClientWithCache, validateTokenAuth, h1, h2, h3, if_false,
      if_neg h2, if_neg h3, if_true]
    cases u <;> cases ci <;> simp
  · intro h1 h2 h3 h4 h5 h6
    simp only [newClientWithCache, validateOAuthToken, validateOAuthConfig,
      h1, if_neg h2, if_neg h3, if_neg h4, if_neg h5, if_neg h6]
    cases u <;> cases ci <;> simp

/-- A token-mode instance with both required fields present whose cache
directory cannot be created still constructs, with caching disabled; an
instance missing the email fails with the validation error naming it. -/
theorem newClient_validation_witness :
    (∃ c, newClientWithCache
        { subdomain := "acme", authType := "token", email := "a@b.com",
          apiToken := "tok123", oauthClientID := "", oauthSecret := "",
          oauthToken := "", oauthRefresh := "", oauthExpiry := "" }
        true false = .ok c ∧
      (false = false → c.useCache = false ∧ c.hasCache = false))
    ∧ newClientWithCache
        { subdomain := "acme", authType := "token", email := "",
          apiToken := "tok123", oauthClientID := "", oauthSecret := "",
          oauthToken := "", oauthRefresh := "", oauthExpiry := "" }
        true true = .error "email is required for token authentication" :=
  ⟨(newClient_validation
      { subdomain := "acme", authType := "token", email := "a@b.com",
        apiToken := "tok123", oauthClientID := "", oauthSecret := "",
        oauthToken := "", oauthRefresh := "", oauthExpiry := "" }
      true false).2.2.2.2.2.2.2.1 rfl (by decide) (by decide),
   (newClient_validation
      { subdomain := "acme", authType := "token", email := "",
        apiToken := "tok123", oauthClientID := "", oauthSecret := "",
        oauthToken := "", oauthRefresh := "", oauthExpiry := "" }
      true true).1 rfl rfl⟩

/-! ## Claim C5 -/

/-- C5: a constructed Token-mode client carries the authorization header
Basic followed by base64 of email/token:apitoken, and a constructed
OAuth-mode client carries Bearer followed by the raw access token. -/
theorem authHeader_spec (inst : Instance) (u ci : Bool) :
    (inst.authType = "token" → inst.email ≠ "" → inst.apiToken ≠ "" →
      ∃ c, newClientWithCache inst u ci = .ok c ∧
        c.authHeader =
          "Basic " ++ base64EncodeString (inst.email ++ "/token:" ++ inst.apiToken))
    ∧ (inst.authType = "oauth" → inst.oauthToken ≠ "" → inst.oauthRefresh ≠ "" →
        inst.oauthExpiry ≠ "" → inst.oauthClientID ≠ "" → inst.oauthSecret ≠ "" →
      ∃ c, newClientWithCache inst u ci = .ok c ∧
        c.authHeader = "Bearer " ++ inst.oauthToken) := by
  constructor
  · intro h1 h2 h3
    simp only [newClientWithCache, validateTokenAuth, h1, if_neg h2, if_neg h3,
      if_true, encodeToken]
    cases u <;> cases ci <;> simp
  · intro h1 h2 h3 h4 h5 h6
    simp only [newClientWithCache, validateOAuthToken, validateOAuthConfig,
      h1, if_neg h2, if_neg h3, if_neg h4, if_neg h5, if_neg h6]
    cases u <;> cases ci <;> simp

/-- The end-to-end scenario of the specification: email a@b.com with token
tok123 yields the header Basic YUBiLmNvbS90b2tlbjp0b2sxMjM=, which is
Basic followed by base64 of a@b.com/token:tok123. -/
theorem authHeader_witness :
    ∃ c, newClientWithCache
        { subdomain := "acme", authType := "token", email := "a@b.com",
          apiToken := "tok123", oauthClientID := "", oauthSecret := "",
          oauthToken := "", oauthRefresh := "", oauthExpiry := "" }
        true true = .ok c ∧
      c.authHeader = "Basic YUBiLmNvbS90b2tlbjp0b2sxMjM=" := by
  obtain ⟨c, hc, hh⟩ := (authHeader_spec
      { subdomain := "acme", authType := "token", email := "a@b.com",
        apiToken := "tok123", oauthClientID := "", oauthSecret := "",
        oauthToken := "", oauthRefresh := "", oauthExpiry := "" }
      true true).1 rfl (by decide) (by decide)
  refine ⟨c, hc, ?_⟩
  rw [hh]
  decide

/-! ## Claim C6 -/

/-- C6 as stated is false for the 5xx status 502: the fixed table names
only 500 and 503, so an unparsable 502 body yields the generic message
HTTP 502 Error rather than a Server Error/Unavailable message. -/
theorem parseAPIError_502_counterexample :
    500 ≤ 502 ∧ 502 < 600 ∧
    (parseAPIError 502 (.unparsed "bad gateway")).message = "HTTP 502 Error" ∧
    (parseAPIError 502 (.unparsed "bad gateway")).message ≠ "Zendesk Server Error" ∧
    (parseAPIError 502 (.unparsed "bad gateway")).message ≠
      "Zendesk Service Unavailable" := by
  decide

/-- C6 (amended): classification first takes the structured body (machine
error code plus description) whenever it parses with a non-empty error
field; otherwise it synthesizes a generic error from the fixed table
(400 Bad Request, 401 Authentication Failed, 403 Access Denied,
404 Resource Not Found, 422 Invalid Input, 429 Rate Limit Exceeded,
500 Zendesk Server Error and 503 Zendesk Service Unavailable — any other
status, 5xx ones such as 502 included, yields HTTP status Error); and the
three predicates hold exactly at 429, 401-or-403, and 404. -/
theorem parseAPIError_classification (statusCode : Nat) (body : RespBody) :
    (∀ e d raw, body = .parsed e d raw → e ≠ "" →
      parseAPIError statusCode body =
        { statusCode := statusCode, message := e, description := d })
    ∧ (∀ d raw, body = .parsed "" d raw →
      parseAPIError statusCode body =
        { statusCode := statusCode, message := getStatusMessage statusCode,
          description := raw })
    ∧ (∀ raw, body = .unparsed raw →
      parseAPIError statusCode body =
        { statusCode := statusCode, message := getStatusMessage statusCode,
          description := raw })
    ∧ getStatusMessage 400 = "Bad Request"
    ∧ getStatusMessage 401 = "Authentication Failed"
    ∧ getStatusMessage 403 = "Access Denied"
    ∧ getStatusMessage 404 = "Resource Not Found"
    ∧ getStatusMessage 422 = "Invalid Input"
    ∧ getStatusMessage 429 = "Rate Limit Exceeded"
    ∧ getStatusMessage 500 = "Zendesk Server Error"
    ∧ getStatusMessage 503 = "Zendesk Service Unavailable"
    ∧ (statusCode ≠ 400 → statusCode ≠ 401 → statusCode ≠ 403 →
        statusCode ≠ 404 → statusCode ≠ 422 → statusCode ≠ 429 →
        statusCode ≠ 500 → statusCode ≠ 503 →
      getStatusMessage statusCode = "HTTP " ++ natStr statusCode ++ " Error")
    ∧ (isRateLimitError (parseAPIError statusCode body) = true ↔ statusCode = 429)
    ∧ (isAuthError (parseAPIError statusCode body) = true ↔
        statusCode = 401 ∨ statusCode = 403)
    ∧ (isNotFoundError (parseAPIError statusCode body) = true ↔ statusCode = 404) := by
  have hstatus : (parseAPIError statusCode body).statusCode = statusCode := by
    cases body with
    | parsed e d raw =>
      by_cases he : e = "" <;> simp [parseAPIError, he]
    | unparsed raw => simp [parseAPIError]
  refine ⟨?_, ?_, ?_, rfl, rfl, rfl, rfl, rfl, rfl, rfl, rfl, ?_, ?_, ?_, ?_⟩
  · rintro e d raw rfl he
    simp [parseAPIError, he]
  · rintro d raw rfl
    simp [parseAPIError]
  · rintro raw rfl
    simp [parseAPIError]
  · intro h1 h2 h3 h4 h5 h6 h7 h8
    simp [getStatusMessage, h1, h2, h3, h4, h5, h6, h7, h8]
  · simp [isRateLimitError, hstatus]
  · simp [isAuthError, hstatus]
  · simp [isNotFoundError, hstatus]

/-- The table and predicates at concrete points: a 429 without a parsable
body classifies as Rate Limit Exceeded and satisfies exactly the
rate-limit predicate, and 418 falls to the generic HTTP 418 Error. -/
theorem parseAPIError_classification_witness :
    parseAPIError 429 (.unparsed "") =
      { statusCode := 429, message := "Rate Limit Exceeded", description := "" }
    ∧ getStatusMessage 418 = "HTTP 418 Error"
    ∧ (isRateLimitError (parseAPIError 429 (.unparsed "")) = true) :=
  ⟨by
    have h := (parseAPIError_classification 429 (.unparsed "")).2.2.1 "" rfl
    rw [h]
    decide,
   by
    have h := (parseAPIError_classification 418 (.unparsed "")).2.2.2.2.2.2.2.2.2.2.2.1
      (by decide) (by decide) (by decide) (by decide) (by decide) (by decide)
      (by decide) (by decide)
    rw [h]
    decide,
   (parseAPIError_classification 429 (.unparsed "")).2.2.2.2.2.2.2.2.2.2.2.2.1.mpr rfl⟩

/-! ## Claim C7 -/

/-- C7: the retry helper returns immediately (no wait, a single call) on a
response with status below 500 that is not 429; on a 429 carrying a parsed
Retry-After it waits min(retryAfter seconds, the 30s ceiling) and then
continues the loop from the next attempt; on a 5xx response or a transport
error it waits min(1s * 2 ^ attempt, the ceiling) and continues; when every
attempt fails it stops after the fixed 4 calls (3 retries), surfacing the
last error; and a context cancelled during any wait aborts the helper right
there with no further calls. -/
theorem retryWithBackoff_spec (fn : Nat → AttemptOutcome) (cancel : Nat → Bool) :
    (∀ s ra, fn 0 = .response s ra → s < 500 → s ≠ 429 →
      retryWithBackoff fn cancel = { result := .success s, waits := [], calls := 1 })
    ∧ (∀ n, fn 0 = .response 429 (some n) → cancel 0 = false →
      retryWithBackoff fn cancel =
        { result := (retryAux defaultRetryConfig fn cancel 1 3 "HTTP 429").result,
          waits := min (n * second) (30 * second) ::
            (retryAux defaultRetryConfig fn cancel 1 3 "HTTP 429").waits,
          calls := (retryAux defaultRetryConfig fn cancel 1 3 "HTTP 429").calls + 1 })
    ∧ (∀ s ra, fn 0 = .response s ra → 500 ≤ s → cancel 0 = false →
      retryWithBackoff fn cancel =
        { result := (retryAux defaultRetryConfig fn cancel 1 3 ("HTTP " ++ natStr s)).result,
          waits := second ::
            (retryAux defaultRetryConfig fn cancel 1 3 ("HTTP " ++ natStr s)).waits,
          calls := (retryAux defaultRetryConfig fn cancel 1 3 ("HTTP " ++ natStr s)).calls + 1 })
    ∧ (∀ e, fn 0 = .transportError e → cancel 0 = false →
      retryWithBackoff fn cancel =
        { result := (retryAux defaultRetryConfig fn cancel 1 3 e).result,
          waits := second :: (retryAux defaultRetryConfig fn cancel 1 3 e).waits,
          calls := (retryAux defaultRetryConfig fn cancel 1 3 e).calls + 1 })
    ∧ (∀ msg : Nat → String, (∀ k, fn k = .transportError (msg k)) →
        (∀ k, cancel k = false) →
      retryWithBackoff fn cancel =
        { result := .exhausted ("request failed after 3 retries: " ++ msg 3),
          waits := [second, 2 * second, 4 * second], calls := 4 })
    ∧ (∀ n, fn 0 = .response 429 (some n) → cancel 0 = true →
      retryWithBackoff fn cancel = { result := .ctxCancelled, waits := [], calls := 1 })
    ∧ (∀ e, fn 0 = .transportError e → cancel 0 = true →
      retryWithBackoff fn cancel = { result := .ctxCancelled, waits := [], calls := 1 })
    ∧ (∀ s ra, fn 0 = .response s ra → 500 ≤ s → cancel 0 = true →
      retryWithBackoff fn cancel = { result := .ctxCancelled, waits := [], calls := 1 }) := by
  refine ⟨?_, ?_, ?_, ?_, ?_, ?_, ?_, ?_⟩
  · intro s ra h0 hs h429
    simp [retryWithBackoff, retryAux, h0, hs, h429]
  · intro n h0 hc
    simp [retryWithBackoff, retryAux, h0, hc, defaultRetryConfig]
  · intro s ra h0 hs hc
    have hnot : ¬(s < 500 ∧ s ≠ 429) := by omega
    have hne : s ≠ 429 := by omega
    cases ra with
    | none =>
      simp [retryWithBackoff, retryAux, h0, hnot, backoffStep, hc,
        defaultRetryConfig, second]
    | some n =>
      simp [retryWithBackoff, retryAux, h0, hnot, hne, backoffStep, hc,
        defaultRetryConfig, second]
      omega
  · intro e h0 hc
    simp [retryWithBackoff, retryAux, h0, backoffStep, hc,
      defaultRetryConfig, second]
  · intro msg hmsg hcancel
    have h0 := hmsg 0
    have h1 := hmsg 1
    have h2 := hmsg 2
    have h3 := hmsg 3
    have c0 := hcancel 0
    have c1 := hcancel 1
    have c2 := hcancel 2
    simp [retryWithBackoff, retryAux, h0, h1, h2, h3, c0, c1, c2,
      backoffStep, defaultRetryConfig, retryFailMsg, second]
    rfl
  · intro n h0 hc
    simp [retryWithBackoff, retryAux, h0, hc, defaultRetryConfig]
  · intro e h0 hc
    simp [retryWithBackoff, retryAux, h0, backoffStep, hc, defaultRetryConfig]
  · intro s ra h0 hs hc
    have hnot : ¬(s < 500 ∧ s ≠ 429) := by omega
    have hne : s ≠ 429 := by omega
    cases ra with
    | none =>
      simp [retryWithBackoff, retryAux, h0, hnot, backoffStep, hc, defaultRetryConfig]
    | some n =>
      simp [retryWithBackoff, retryAux, h0, hnot, hne, backoffStep, hc, defaultRetryConfig]
      omega

/-- A function that always fails at the transport level under a live
context: four calls, waits of 1s, 2s and 4s, and the last error surfaced
in the final give-up message. -/
theorem retryWithBackoff_witness :
    retryWithBackoff (fun _ => .transportError "boom") (fun _ => false) =
      { result := .exhausted ("request failed after 3 retries: " ++ "boom"),
        waits := [second, 2 * second, 4 * second], calls := 4 } :=
  (retryWithBackoff_spec (fun _ => .transportError "boom") (fun _ => false)).2.2.2.2.1
    (fun _ => "boom") (fun _ => rfl) (fun _ => rfl)

/-! ## Claim C8 -/

/-- C8: whatever per-page value above 100 the caller supplies to the ticket
list command, the clamp reduces it to 100 and the effective HTTP request
path carries per_page equal to 100 (the path equals the one built for a
per-page of exactly 100). -/
theorem perPage_clamped (page perPage : Int) (escapedStatus : String)
    (h : perPage > 100) :
    runTicketListPerPage perPage = 100 ∧
    runTicketListRequestPath page perPage escapedStatus =
      listTicketsPath page 100 escapedStatus := by
  constructor
  · simp [runTicketListPerPage, h]
  · simp [runTicketListRequestPath, runTicketListPerPage, h]

/-- The specification scenario: a per-page of 500 produces a request with
per_page equal to 100. -/
theorem perPage_clamped_witness :
    (runTicketListPerPage 500 = 100 ∧
      runTicketListRequestPath 1 500 "" = listTicketsPath 1 100 "") ∧
    runTicketListRequestPath 1 500 "" = "/tickets.json?page=1&per_page=100" :=
  ⟨perPage_clamped 1 500 "" (by decide), by decide⟩

/-! ## Claim C9 -/

/-- C9 as stated is false on the update path: a caller who explicitly sets
the assignee flag to zero produces an update request whose assignee pointer
is non-nil and points to zero, and the outgoing body therefore transmits
assignee_id 0 to the remote API. -/
theorem updateTicket_zero_counterexample :
    (runTicketUpdateIds true 0 false 0).assigneeID = some 0 ∧
    updateTicketBodyIds (runTicketUpdateIds true 0 false 0) =
      [("assignee_id", 0)] := by
  decide

/-- C9 (amended): on the create path a caller-supplied zero (or any
non-positive value) for assignee or group is treated as not set and the
field is omitted from the outgoing body, a positive value is attached; on
the update path the field is omitted exactly when its flag was not
explicitly changed, and an explicitly supplied value — zero included — is
attached and transmitted as-is. -/
theorem ticket_optional_ids (az gz av gv : Int) (aChanged gChanged : Bool) :
    ((runTicketCreateIds 0 gz).assigneeID = none)
    ∧ ((runTicketCreateIds az 0).groupID = none)
    ∧ (az ≤ 0 → (runTicketCreateIds az gz).assigneeID = none)
    ∧ (az > 0 → (runTicketCreateIds az gz).assigneeID = some az)
    ∧ (gz > 0 → (runTicketCreateIds az gz).groupID = some gz)
    ∧ (createTicketBodyIds (runTicketCreateIds 0 0) = [])
    ∧ (aChanged = false →
        (runTicketUpdateIds aChanged av gChanged gv).assigneeID = none)
    ∧ (aChanged = true →
        (runTicketUpdateIds aChanged av gChanged gv).assigneeID = some av)
    ∧ (gChanged = false →
        (runTicketUpdateIds aChanged av gChanged gv).groupID = none)
    ∧ (gChanged = true →
        (runTicketUpdateIds aChanged av gChanged gv).groupID = some gv) := by
  refine ⟨?_, ?_, ?_, ?_, ?_, ?_, ?_, ?_, ?_, ?_⟩
  · simp [runTicketCreateIds]
  · simp [runTicketCreateIds]
  · intro h
    simp [runTicketCreateIds]
    omega
  · intro h
    simp [runTicketCreateIds, h]
  · intro h
    simp [runTicketCreateIds, h]
  · simp [createTicketBodyIds, runTicketCreateIds]
  · intro h
    simp [runTicketUpdateIds, h]
  · intro h
    simp [runTicketUpdateIds, h]
  · intro h
    simp [runTicketUpdateIds, h]
  · intro h
    simp [runTicketUpdateIds, h]

/-- Concrete instances of the amended behavior: a create with assignee 0
and group 7 omits assignee_id and carries group_id 7, and an update with no
flag changed omits both fields. -/
theorem ticket_optional_ids_witness :
    (runTicketCreateIds 0 7).assigneeID = none
    ∧ (runTicketCreateIds 3 7).groupID = some 7
    ∧ (runTicketUpdateIds false 5 false 5).assigneeID = none :=
  ⟨(ticket_optional_ids 0 7 5 5 false false).1,
   (ticket_optional_ids 3 7 5 5 false false).2.2.2.2.1 (by decide),
   (ticket_optional_ids 3 7 5 5 false false).2.2.2.2.2.2.1 rfl⟩

/-! ## Claim C10 -/

/-- C10: the anti-forgery state token is the string state- followed by the
decimal Unix second at which the flow starts — a deterministic function of
that second, with no other input and no randomness — so any two flow
invocations whose start instants fall in the same Unix second, even with
different sub-second parts, produce identical state values, and anyone who
knows the start second computes the token with the same function. -/
theorem oauthState_deterministic (t u : GoTime) :
    performOAuthFlowState t = "state-" ++ intStr t.unixSec
    ∧ (t.unixSec = u.unixSec →
        performOAuthFlowState t = performOAuthFlowState u) := by
  refine ⟨rfl, ?_⟩
  intro h
  simp [performOAuthFlowState, h]

/-- Two flow starts within the same wall-clock second but at different
nanoseconds issue the same predictable token state-1700000000. -/
theorem oauthState_deterministic_witness :
    performOAuthFlowState { unixSec := 1700000000, nanos := 1 } =
      performOAuthFlowState { unixSec := 1700000000, nanos := 999999999 }
    ∧ performOAuthFlowState { unixSec := 1700000000, nanos := 1 } =
      "state-1700000000" :=
  ⟨(oauthState_deterministic { unixSec := 1700000000, nanos := 1 }
      { unixSec := 1700000000, nanos := 999999999 }).2 rfl,
   by decide⟩

end ZdCli
